import Mathlib

/-!
Verification of `src/components/Modals/ProjectModal.tsx`.

The component collects a project name and subdomain, validates them with a
zod schema, and submits them through a remote mutation.  We embed the
component's observable state (loading flag, the single toast slot under the
fixed key `create-project`, the modal-open flag, requested navigations, and
the form's field values and field errors) and the three pieces of logic:
the validation schema `formSchema`, the submit handler `handleCreateProject`,
and the dismiss guard `validateProjectPresence`.
-/

namespace ProjectModal

/-- Shape of the payload echoed back by the server inside a successful
mutation result (`res.createProject`). -/
structure CreatedProject where
  id : String
  subdomain : String
  deriving Repr, DecidableEq

/-- Resolved value of `createProjectAsync`: `{ createProject?: { id, subdomain } }`.
The optional field is `none` when absent. -/
structure MutationResult where
  createProject : Option CreatedProject
  deriving Repr, DecidableEq

/-- How the awaited mutation call finishes: it resolves with a result, it
throws an `Error` instance (carrying a message string), or it throws a
value that is not an `Error` instance. -/
inductive MutationOutcome where
  | resolved (res : MutationResult)
  | threwError (message : String)
  | threwNonError
  deriving Repr, DecidableEq

/-- Kind of the toast currently shown under the fixed key `create-project`. -/
inductive ToastKind where
  | loading
  | success
  | failure
  deriving Repr, DecidableEq

/-- A toast under the fixed key `create-project`: its kind and message. -/
structure Toast where
  kind : ToastKind
  message : String
  deriving Repr, DecidableEq

/-- A react-hook-form field error as set by `form.setError`. -/
structure FieldError where
  type : String
  message : String
  deriving Repr, DecidableEq

/-- The form values submitted to `handleCreateProject`. -/
structure FormValues where
  name : String
  subdomain : String
  deriving Repr, DecidableEq

/-- Observable state of the component: the `loading` flag, the toast slot
for the fixed key `create-project` (`none` when no toast is shown under
that key), the modal-open flag from the `useProjectModal` store, the list
of navigation paths requested via `router.push`, and the form's field
values and field errors. -/
structure ComponentState where
  loading : Bool
  toast : Option Toast
  modalOpen : Bool
  navigations : List String
  formName : String
  formSubdomain : String
  nameError : Option FieldError
  subdomainError : Option FieldError
  deriving Repr, DecidableEq

/-- JavaScript `String.prototype.includes`: substring containment. -/
def jsIncludes (s pat : String) : Bool :=
  decide (pat.data <:+: s.data)

/-- The needle matched against the thrown error's message. -/
def uniqueConstraintNeedle : String :=
  "Unique constraint failed on the fields: (`subdomain`)"

/-- The message computed in the catch branch for an `Error` instance:
the fixed friendly string when the needle occurs, otherwise the raw
message verbatim. -/
def mapSubdomainErrorMessage (msg : String) : String :=
  if jsIncludes msg uniqueConstraintNeedle then
    "Project subdomain already exists"
  else
    msg

/-- Truthiness of `res.createProject?.id`: the optional chain yields the
id when `createProject` is present, and a string is truthy when nonempty. -/
def createdIdTruthy (res : MutationResult) : Bool :=
  match res.createProject with
  | some cp => cp.id != ""
  | none => false

/-- Start of `handleCreateProject`: `setLoading(true)` and the loading
toast under the fixed key. -/
def submitStart (s : ComponentState) : ComponentState :=
  { s with
    loading := true
    toast := some ⟨ToastKind.loading, "Creating project..."⟩ }

/-- Body of the `try`/`catch` of `handleCreateProject`, dispatching on how
the awaited mutation finished. -/
def submitBody (outcome : MutationOutcome) (s : ComponentState) : ComponentState :=
  match outcome with
  | .resolved res =>
    let s :=
      match res.createProject with
      | some cp =>
        if cp.id != "" then
          { s with
            toast := some ⟨ToastKind.success, "Project created successfully"⟩
            navigations := s.navigations ++ ["/dashboard/" ++ cp.subdomain] }
        else s
      | none => s
    { s with modalOpen := false }
  | .threwError msg =>
    { s with
      subdomainError := some ⟨"custom", mapSubdomainErrorMessage msg⟩
      toast := none }
  | .threwNonError =>
    { s with
      toast := some ⟨ToastKind.failure, "Something went wrong"⟩
      modalOpen := false }

/-- The `finally` block: `setLoading(false)`. -/
def submitFinally (s : ComponentState) : ComponentState :=
  { s with loading := false }

/-- `handleCreateProject`, with the mutation's completion supplied as a
parameter.  The submitted `values` are forwarded to the mutation and do
not otherwise affect the state. -/
def handleCreateProject (values : FormValues) (outcome : MutationOutcome)
    (s : ComponentState) : ComponentState :=
  submitFinally (submitBody outcome (submitStart s))

/-- A project as held by the `useUserProjects` query; the handler only
inspects the collection's length. -/
structure Project where
  id : String
  deriving Repr, DecidableEq

/-- `validateProjectPresence`: the dismiss guard.  `projects` is `none`
while the query has not produced a collection yet (JS `undefined`). -/
def validateProjectPresence (projects : Option (List Project))
    (s : ComponentState) : ComponentState :=
  match projects with
  | some ps => if ps.length > 0 then { s with modalOpen := false } else s
  | none => s

/-- `formSchema`'s rule for `name`: min 3 then max 17, first failing check
reported.  `none` means the field validates. -/
def validateName (name : String) : Option String :=
  if name.length < 3 then
    some "Project name must be atleast 3 characters long"
  else if name.length > 17 then
    some "Project name must be less than 17 characters"
  else
    none

/-- The character class `[a-zA-Z0-9]` of the subdomain regex. -/
def isSubdomainChar (c : Char) : Bool :=
  ('a' ≤ c && c ≤ 'z') || ('A' ≤ c && c ≤ 'Z') || ('0' ≤ c && c ≤ '9')

/-- The regex `^[a-zA-Z0-9]+$`: one or more characters of the class,
nothing else. -/
def matchesSubdomainRegex (s : String) : Bool :=
  !s.data.isEmpty && s.data.all isSubdomainChar

/-- `formSchema`'s rule for `subdomain`: min 3 then the regex, first
failing check reported.  `none` means the field validates. -/
def validateSubdomain (sd : String) : Option String :=
  if sd.length < 3 then
    some "Project subdomain must be atleast 3 characters long"
  else if !matchesSubdomainRegex sd then
    some "Project subdomain must only contain letters and numbers"
  else
    none

/-- A sample component state used to instantiate universally quantified
theorems at concrete inputs. -/
def sampleState : ComponentState :=
  { loading := false
    toast := none
    modalOpen := true
    navigations := []
    formName := "My Project"
    formSubdomain := "acme"
    nameError := none
    subdomainError := none }

/-- Claim C1: when the mutation resolves, the modal close is requested
unconditionally — the final modal-open flag is false for every resolved
result — while, when the created-project identifier is absent or falsy,
no navigation is requested and the toast slot still holds the in-progress
notification rather than a success one. -/
theorem handleCreateProject_resolved_closes_modal
    (values : FormValues) (res : MutationResult) (s : ComponentState) :
    (handleCreateProject values (.resolved res) s).modalOpen = false ∧
    (createdIdTruthy res = false →
      (handleCreateProject values (.resolved res) s).navigations = s.navigations ∧
      (handleCreateProject values (.resolved res) s).toast =
        some ⟨ToastKind.loading, "Creating project..."⟩) := by
  rcases res with ⟨_ | cp⟩
  · exact ⟨rfl, fun _ => ⟨rfl, rfl⟩⟩
  · by_cases h : cp.id = ""
    · refine ⟨?_, fun _ => ⟨?_, ?_⟩⟩ <;>
        simp [handleCreateProject, submitStart, submitBody, submitFinally, h]
    · refine ⟨?_, fun hf => ?_⟩
      · simp [handleCreateProject, submitStart, submitBody, submitFinally, h]
      · exact absurd hf (by simp [createdIdTruthy, h])

/-- Witness for C1 at a resolved result whose `createProject` field is
absent: the modal still ends closed and nothing was navigated. -/
theorem handleCreateProject_resolved_closes_modal_witness :
    (handleCreateProject ⟨"My Project", "acme"⟩ (.resolved ⟨none⟩) sampleState).modalOpen
        = false ∧
    (handleCreateProject ⟨"My Project", "acme"⟩ (.resolved ⟨none⟩) sampleState).navigations
        = sampleState.navigations := by
  have h := handleCreateProject_resolved_closes_modal ⟨"My Project", "acme"⟩ ⟨none⟩ sampleState
  exact ⟨h.1, (h.2 (by decide)).1⟩

/-- Claim C2: when the mutation resolves with a truthy created-project id,
the toast slot (fixed key) is replaced by the success notification, a
navigation to `/dashboard/` followed by the server-echoed subdomain is
appended, and the modal is closed; loading is cleared by the finally
block. -/
theorem handleCreateProject_success_navigates
    (values : FormValues) (cp : CreatedProject) (s : ComponentState)
    (h : cp.id ≠ "") :
    handleCreateProject values (.resolved ⟨some cp⟩) s =
      { s with
        loading := false
        toast := some ⟨ToastKind.success, "Project created successfully"⟩
        navigations := s.navigations ++ ["/dashboard/" ++ cp.subdomain]
        modalOpen := false } := by
  cases s
  simp [handleCreateProject, submitStart, submitBody, submitFinally, h]

/-- Witness for C2: a result with id `p1` and echoed subdomain `acme`
leads to a navigation request for `/dashboard/acme`. -/
theorem handleCreateProject_success_navigates_witness :
    (handleCreateProject ⟨"My Project", "diff"⟩
        (.resolved ⟨some ⟨"p1", "acme"⟩⟩) sampleState).navigations
      = ["/dashboard/acme"] := by
  rw [handleCreateProject_success_navigates ⟨"My Project", "diff"⟩ ⟨"p1", "acme"⟩
    sampleState (by decide)]
  rfl

/-- Claim C3: when the mutation throws an `Error` instance, the subdomain
field error is set — to the fixed friendly string when the message
contains the uniqueness-constraint needle, and to the raw message
verbatim otherwise — the in-progress toast is removed (the slot becomes
empty, no success or failure toast), and the modal-open flag is left
unchanged. -/
theorem handleCreateProject_error_instance
    (values : FormValues) (msg : String) (s : ComponentState) :
    handleCreateProject values (.threwError msg) s =
      { s with
        loading := false
        toast := none
        subdomainError := some ⟨"custom", mapSubdomainErrorMessage msg⟩ } ∧
    (jsIncludes msg uniqueConstraintNeedle = true →
      mapSubdomainErrorMessage msg = "Project subdomain already exists") ∧
    (jsIncludes msg uniqueConstraintNeedle = false →
      mapSubdomainErrorMessage msg = msg) := by
  refine ⟨by cases s; rfl, fun h => ?_, fun h => ?_⟩
  · simp [mapSubdomainErrorMessage, h]
  · simp [mapSubdomainErrorMessage, h]

/-- Witness for C3: a message containing the needle maps to the fixed
string, and `Network unreachable` is forwarded verbatim. -/
theorem handleCreateProject_error_instance_witness :
    mapSubdomainErrorMessage uniqueConstraintNeedle
        = "Project subdomain already exists" ∧
    mapSubdomainErrorMessage "Network unreachable" = "Network unreachable" :=
  ⟨(handleCreateProject_error_instance ⟨"a", "b"⟩ uniqueConstraintNeedle
      sampleState).2.1 (by decide),
   (handleCreateProject_error_instance ⟨"a", "b"⟩ "Network unreachable"
      sampleState).2.2 (by decide)⟩

/-- Claim C4: when the mutation throws a value that is not an `Error`
instance, the toast slot under the fixed key becomes the generic failure
notification and the modal is force-closed. -/
theorem handleCreateProject_non_error (values : FormValues) (s : ComponentState) :
    handleCreateProject values .threwNonError s =
      { s with
        loading := false
        toast := some ⟨ToastKind.failure, "Something went wrong"⟩
        modalOpen := false } := by
  cases s; rfl

/-- Claim C5: the name rule accepts exactly the names of length in
[3, 17], rejects shorter ones with the fixed too-short message and longer
ones with the fixed too-long message. -/
theorem validateName_spec (n : String) :
    (validateName n = none ↔ 3 ≤ n.length ∧ n.length ≤ 17) ∧
    (n.length < 3 →
      validateName n = some "Project name must be atleast 3 characters long") ∧
    (17 < n.length →
      validateName n = some "Project name must be less than 17 characters") := by
  unfold validateName
  refine ⟨?_, fun h => ?_, fun h => ?_⟩
  · split_ifs with h1 h2 <;> simp <;> omega
  · simp [h]
  · rw [if_neg (by omega), if_pos h]

/-- Witness for C5: a two-character name is too short, an
eighteen-character name is too long, and a three-character name passes. -/
theorem validateName_spec_witness :
    validateName "ab" = some "Project name must be atleast 3 characters long" ∧
    validateName "abcdefghijklmnopqr"
        = some "Project name must be less than 17 characters" ∧
    validateName "abc" = none :=
  ⟨(validateName_spec "ab").2.1 (by decide),
   (validateName_spec "abcdefghijklmnopqr").2.2 (by decide),
   (validateName_spec "abc").1.mpr (by decide)⟩

/-- Claim C6: the subdomain rule accepts exactly the strings of length at
least 3 matching `[a-zA-Z0-9]+` anchored at both ends; a too-short
subdomain gets the fixed length message even when the pattern also fails
(the checks run length first), and a long-enough subdomain failing the
pattern gets the fixed pattern message. -/
theorem validateSubdomain_spec (sd : String) :
    (validateSubdomain sd = none ↔
      3 ≤ sd.length ∧ matchesSubdomainRegex sd = true) ∧
    (sd.length < 3 →
      validateSubdomain sd
        = some "Project subdomain must be atleast 3 characters long") ∧
    (3 ≤ sd.length → matchesSubdomainRegex sd = false →
      validateSubdomain sd
        = some "Project subdomain must only contain letters and numbers") := by
  unfold validateSubdomain
  refine ⟨?_, fun h => ?_, fun h hm => ?_⟩
  · split_ifs with h1 h2
    · constructor
      · intro h; simp at h
      · intro h; exact absurd h.1 (by omega)
    · constructor
      · intro h; simp at h
      · intro h
        rw [h.2] at h2
        simp at h2
    · constructor
      · intro _
        simp at h2
        exact ⟨by omega, h2⟩
      · intro _; rfl
  · simp [h]
  · rw [if_neg (by omega), if_pos (by simp [hm])]

/-- Witness for C6: `a!` fails both rules and gets the length message,
`ab!` is long enough but fails the pattern, and `acme1` passes. -/
theorem validateSubdomain_spec_witness :
    validateSubdomain "a!"
        = some "Project subdomain must be atleast 3 characters long" ∧
    validateSubdomain "ab!"
        = some "Project subdomain must only contain letters and numbers" ∧
    validateSubdomain "acme1" = none :=
  ⟨(validateSubdomain_spec "a!").2.1 (by decide),
   (validateSubdomain_spec "ab!").2.2 (by decide) (by decide),
   (validateSubdomain_spec "acme1").1.mpr (by decide)⟩

/-- Claim C7: on a dismiss request, the presence guard closes the modal
when the known project collection is non-empty, and leaves the whole
state unchanged when the collection is empty. -/
theorem validateProjectPresence_spec (ps : List Project) (s : ComponentState) :
    (ps ≠ [] → validateProjectPresence (some ps) s = { s with modalOpen := false }) ∧
    validateProjectPresence (some []) s = s := by
  refine ⟨fun h => ?_, rfl⟩
  cases ps with
  | nil => exact absurd rfl h
  | cons p ps' => simp [validateProjectPresence]

/-- Witness for C7: with one known project the guard closes the modal;
with none it leaves the sample state untouched. -/
theorem validateProjectPresence_spec_witness :
    (validateProjectPresence (some [⟨"p1"⟩]) sampleState).modalOpen = false ∧
    validateProjectPresence (some []) sampleState = sampleState := by
  have h := validateProjectPresence_spec [⟨"p1"⟩] sampleState
  refine ⟨?_, h.2⟩
  rw [h.1 (by decide)]

/-- Claim C8: the loading flag is raised at the start of every submission
and is false after every completion path — resolved, thrown `Error`, and
thrown non-`Error` alike — because the finally block clears it. -/
theorem handleCreateProject_loading_lifecycle
    (values : FormValues) (outcome : MutationOutcome) (s : ComponentState) :
    (submitStart s).loading = true ∧
    (handleCreateProject values outcome s).loading = false :=
  ⟨rfl, rfl⟩

/-- Claim C9: when the project collection is not yet available (JS
`undefined`), the guard requests no close and acts exactly as in the
empty-collection case. -/
theorem validateProjectPresence_undefined (s : ComponentState) :
    validateProjectPresence none s = s ∧
    validateProjectPresence none s = validateProjectPresence (some []) s :=
  ⟨rfl, rfl⟩

/-- Claim C10: on the thrown-`Error` path the form field values, the name
field error, the modal-open flag and the navigation list are all unchanged;
only the subdomain error (and the toast/loading slots) are touched. -/
theorem handleCreateProject_error_frame
    (values : FormValues) (msg : String) (s : ComponentState) :
    (handleCreateProject values (.threwError msg) s).formName = s.formName ∧
    (handleCreateProject values (.threwError msg) s).formSubdomain = s.formSubdomain ∧
    (handleCreateProject values (.threwError msg) s).nameError = s.nameError ∧
    (handleCreateProject values (.threwError msg) s).modalOpen = s.modalOpen ∧
    (handleCreateProject values (.threwError msg) s).navigations = s.navigations :=
  ⟨rfl, rfl, rfl, rfl, rfl⟩

end ProjectModal
